import Mathlib

/-!
# A verification model of the lrgp-bill transactional document store

This file gives a shallow embedding of `src/database.ts`: the typed record
stores, the stock ledger, the referential-integrity deletes, the settings
store and the snapshot export/import, together with theorems checking the
specification's statements against that embedding.

Modelling conventions:
* the SQLite database is a pure `DB` value (one list of rows per table,
  in insertion order); a SQL `UPDATE ... WHERE id = ?` is a `List.map`
  over the table, a `DELETE ... WHERE` is a `List.filter`, a `SELECT ...
  WHERE id = ? LIMIT 1` is a `List.find?`;
* JavaScript numbers reaching the store are modelled as `Int` (every
  claim under study involves only exact integer arithmetic); nullable
  REAL columns are `Option Int`;
* an operation wrapped in `BEGIN TRANSACTION ... COMMIT / ROLLBACK`
  is a function producing a `TxResult`: on `ok` it carries the committed
  state, on `err` it carries the rolled-back (pre-transaction) state;
* nondeterministic inputs of the source (`Date.now()` based ids, the
  current date) are explicit parameters.
-/

/-- Structured address sub-record (`Address` in `types.ts`). -/
structure Address where
  line1 : String
  line2 : String
  district : String
  state : String
  country : String
  pincode : String
deriving DecidableEq

/-- A product row (`products` table / `Product` in `types.ts`).
`stock` and `reorderPoint` are nullable REAL columns. -/
structure Product where
  id : String
  name : String
  sku : Option String
  hsnCode : Option String
  category : Option String
  salePrice : Int
  purchasePrice : Int
  taxRate : Option Int
  isService : Bool
  stock : Option Int
  reorderPoint : Option Int
deriving DecidableEq

/-- A customer row (`customers` table). -/
structure Customer where
  id : String
  name : String
  email : Option String
  phone : Option String
  billingAddress : Address
  shippingAddress : Address
  gstin : Option String
deriving DecidableEq

/-- A supplier row (`suppliers` table). -/
structure Supplier where
  id : String
  name : String
  email : Option String
  phone : Option String
  address : Address
  gstin : Option String
deriving DecidableEq

/-- An embedded invoice line item (`InvoiceItem` in `types.ts`).
`productId` is absent for custom items and for tombstoned deleted
products. -/
structure InvoiceItem where
  productId : Option String
  customItemName : Option String
  hsnCode : Option String
  quantity : Int
  rate : Int
  taxRate : Int
deriving DecidableEq

/-- A sales invoice row (`sales_invoices` table).  The `amountPaid`
column is always written as a number (`amountPaid || 0` on create). -/
structure SalesInvoice where
  id : String
  invoiceNumber : String
  customerId : String
  invoiceDate : String
  dueDate : String
  items : List InvoiceItem
  status : String
  amountPaid : Int
deriving DecidableEq

/-- A quotation row (`quotations` table). -/
structure Quotation where
  id : String
  quotationNumber : String
  customerId : String
  quoteDate : String
  expiryDate : String
  items : List InvoiceItem
  status : String
deriving DecidableEq

/-- A purchase invoice row (`purchase_invoices` table). -/
structure PurchaseInvoice where
  id : String
  invoiceNumber : String
  supplierId : String
  purchaseDate : String
  items : List InvoiceItem
  status : String
  amountPaid : Int
deriving DecidableEq

/-- A stock adjustment row (`stock_adjustments` table). -/
structure StockAdjustment where
  id : String
  productId : String
  date : String
  quantityChange : Int
  reason : String
deriving DecidableEq

/-- Company identity block of the application settings
(`CompanyDetails` in `types.ts`). -/
structure CompanyDetails where
  name : String
  address : Address
  email : String
  phone : String
  gstin : String
  logoUrl : String
deriving DecidableEq

/-- Bank account block of the invoice settings (`BankDetails` in
`types.ts`). -/
structure BankDetails where
  bankName : String
  accountNumber : String
  ifscCode : String
  branch : String
deriving DecidableEq

/-- Invoice numbering, notes and bank details
(`InvoiceSettings` in `types.ts`). -/
structure InvoiceSettings where
  accentColor : String
  notes : String
  terms : String
  bankDetails : Option BankDetails
  invoiceNumberPrefix : String
  nextInvoiceNumber : Int
  quotationNumberPrefix : String
  nextQuotationNumber : Int
deriving DecidableEq

/-- A parsed settings document: the only values the application ever
stringifies into the `settings` table are company-details and
invoice-settings documents (`JSON.parse` does not check which key a
document sits under, so either shape can appear under either key and is
returned as stored). -/
inductive SettingJson where
  | company (c : CompanyDetails)
  | invoice (i : InvoiceSettings)
deriving DecidableEq

/-- The TEXT `value` column of the `settings` table.  All writes store
`JSON.stringify` of a structured value, so a well-formed value is
modelled by the structured document its text encodes; `malformed` is
text on which `JSON.parse` throws. -/
inductive SettingText where
  | json (v : SettingJson)
  | malformed (raw : String)
deriving DecidableEq

/-- The whole relational store: one list of rows per table, in
insertion order, mirroring `createTables` in `database.ts`. -/
structure DB where
  settings : List (String × Option SettingText)
  products : List Product
  customers : List Customer
  suppliers : List Supplier
  salesInvoices : List SalesInvoice
  quotations : List Quotation
  purchaseInvoices : List PurchaseInvoice
  stockAdjustments : List StockAdjustment
deriving DecidableEq

/-- Failure conditions surfaced by the store's transactional operations
(`throw new Error(...)` sites in `database.ts`, plus the SQL error an
empty `SET` clause provokes). -/
inductive DbError where
  | productNotFound
  | insufficientStock
  | malformedSql
deriving DecidableEq

/-- Outcome of a `BEGIN TRANSACTION ... COMMIT / ROLLBACK` block:
`ok` carries the returned value and the committed store, `err` carries
the thrown condition and the rolled-back (unchanged) store. -/
inductive TxResult (α : Type) where
  | ok (val : α) (db : DB)
  | err (e : DbError) (db : DB)
deriving DecidableEq

/-- The store state an operation leaves behind, whether it committed
or rolled back. -/
def TxResult.dbOf {α : Type} : TxResult α → DB
  | .ok _ db => db
  | .err _ db => db

/-- JavaScript truthiness of an optional string, as used by
`if (item.productId)`: absent and the empty string are falsy. -/
def jsTruthy : Option String → Bool
  | none => false
  | some s => !s.isEmpty

/-- `UPDATE products SET stock = stock + delta WHERE id = pid`.
A NULL `stock` stays NULL (SQLite arithmetic on NULL). -/
def updateStockBy (delta : Int) (pid : String) (ps : List Product) : List Product :=
  ps.map fun p => if p.id = pid then { p with stock := p.stock.map (· + delta) } else p

/-- The per-item stock loop shared by the invoice operations
(`items.forEach(item => { if (item.productId) UPDATE products SET
stock = stock + sign*quantity ... })`). -/
def applyItemsStock (sign : Int) (items : List InvoiceItem) (ps : List Product) : List Product :=
  items.foldl (fun ps it =>
    if jsTruthy it.productId then updateStockBy (sign * it.quantity) (it.productId.getD "") ps
    else ps) ps

/-- Total quantity the items of one invoice attribute to product `pid`
(only items with a truthy `productId` count). -/
def itemsQtyFor (pid : String) : List InvoiceItem → Int
  | [] => 0
  | it :: rest =>
      (if jsTruthy it.productId ∧ it.productId = some pid then it.quantity else 0) +
        itemsQtyFor pid rest

/-- `productStore.adjustStock(productId, quantity, reason)`
(`database.ts` lines 255-285): inside one transaction, read the current
stock, fail if the product is missing, fail with the insufficient-stock
condition when `quantity < 0 && currentStock + quantity < 0` (a NULL
stock read back as `null` participates in the JavaScript comparison as
0), otherwise insert a `stock_adjustments` row and add `quantity` to
the product's stock.  `saId` and `date` stand for the
`sa-` ++ `Date.now()` id and the current ISO date. -/
def adjustStock (db : DB) (productId : String) (quantity : Int)
    (saId date reason : String) : TxResult (Option Product) :=
  match db.products.find? (fun p => p.id = productId) with
  | none => .err .productNotFound db
  | some p =>
      if quantity < 0 ∧ p.stock.getD 0 + quantity < 0 then
        .err .insufficientStock db
      else
        let db2 : DB :=
          { db with
            stockAdjustments := db.stockAdjustments ++
              [{ id := saId, productId := productId, date := date,
                 quantityChange := quantity, reason := reason }],
            products := updateStockBy quantity productId db.products }
        .ok (db2.products.find? (fun q => q.id = productId)) db2

/-- The creation payload of a sales invoice (`SalesInvoiceData`):
everything but the generated id; `amountPaid` is optional. -/
structure SalesInvoiceData where
  invoiceNumber : String
  customerId : String
  invoiceDate : String
  dueDate : String
  items : List InvoiceItem
  status : String
  amountPaid : Option Int
deriving DecidableEq

/-- A `Partial<SalesInvoiceData>` object: each field of the record is
either present or absent (`Object.entries` iterates the present ones). -/
structure SalesInvoiceDelta where
  invoiceNumber : Option String
  customerId : Option String
  invoiceDate : Option String
  dueDate : Option String
  items : Option (List InvoiceItem)
  status : Option String
  amountPaid : Option Int
deriving DecidableEq

/-- The delta object with no present field at all (`{}`). -/
def emptySalesDelta : SalesInvoiceDelta :=
  { invoiceNumber := none, customerId := none, invoiceDate := none,
    dueDate := none, items := none, status := none, amountPaid := none }

/-- `Object.entries(data).length === 0` for a sales-invoice delta. -/
def SalesInvoiceDelta.isEmpty (d : SalesInvoiceDelta) : Bool :=
  d.invoiceNumber.isNone && d.customerId.isNone && d.invoiceDate.isNone &&
    d.dueDate.isNone && d.items.isNone && d.status.isNone && d.amountPaid.isNone

/-- Effect of the generated `UPDATE sales_invoices SET ... WHERE id = ?`
on one row: each present field overwrites the stored one. -/
def applySalesDelta (inv : SalesInvoice) (d : SalesInvoiceDelta) : SalesInvoice :=
  { inv with
    invoiceNumber := d.invoiceNumber.getD inv.invoiceNumber,
    customerId := d.customerId.getD inv.customerId,
    invoiceDate := d.invoiceDate.getD inv.invoiceDate,
    dueDate := d.dueDate.getD inv.dueDate,
    items := d.items.getD inv.items,
    status := d.status.getD inv.status,
    amountPaid := d.amountPaid.getD inv.amountPaid }

/-- `salesInvoiceStore.create(data)` (`database.ts` lines 405-424):
inside one transaction, insert the row (storing `amountPaid || 0`),
then for every item with a truthy `productId` subtract its quantity
from that product's stock.  No stock-adjustment row is written and no
negative-stock check is performed.  `newId` stands for the generated
`si-` ++ `Date.now()` id. -/
def salesCreate (db : DB) (newId : String) (d : SalesInvoiceData) : TxResult SalesInvoice :=
  let row : SalesInvoice :=
    { id := newId, invoiceNumber := d.invoiceNumber, customerId := d.customerId,
      invoiceDate := d.invoiceDate, dueDate := d.dueDate, items := d.items,
      status := d.status, amountPaid := d.amountPaid.getD 0 }
  let db2 : DB :=
    { db with
      salesInvoices := db.salesInvoices ++ [row],
      products := applyItemsStock (-1) d.items db.products }
  .ok row db2

/-- `salesInvoiceStore.update(id, data)` (`database.ts` lines 425-456):
look the old row up (absent: return `undefined`, no transaction);
inside one transaction add the old items' quantities back, subtract the
quantities of `data.items || oldInvoice.items`, then run the generated
row update.  When `data` has no field at all the generated statement is
`UPDATE sales_invoices SET  WHERE id = ?`, which the SQL engine rejects
with a syntax error, so the transaction rolls back and the error
propagates. -/
def salesUpdate (db : DB) (id : String) (d : SalesInvoiceDelta) : TxResult (Option SalesInvoice) :=
  match db.salesInvoices.find? (fun r => r.id = id) with
  | none => .ok none db
  | some oldInvoice =>
      let ps1 := applyItemsStock 1 oldInvoice.items db.products
      let newItems := d.items.getD oldInvoice.items
      let ps2 := applyItemsStock (-1) newItems ps1
      if d.isEmpty then
        .err .malformedSql db
      else
        let db2 : DB :=
          { db with
            products := ps2,
            salesInvoices := db.salesInvoices.map
              (fun r => if r.id = id then applySalesDelta r d else r) }
        .ok (db2.salesInvoices.find? (fun r => r.id = id)) db2

/-- `salesInvoiceStore.delete(id)` (`database.ts` lines 457-474):
absent row returns `false`; otherwise, inside one transaction, add each
item's quantity back to its product's stock and delete the row. -/
def salesDelete (db : DB) (id : String) : TxResult Bool :=
  match db.salesInvoices.find? (fun r => r.id = id) with
  | none => .ok false db
  | some invoice =>
      let db2 : DB :=
        { db with
          products := applyItemsStock 1 invoice.items db.products,
          salesInvoices := db.salesInvoices.filter (fun r => r.id ≠ id) }
      .ok true db2

/-- A `Partial<PurchaseInvoiceData>` object. -/
structure PurchaseInvoiceDelta where
  invoiceNumber : Option String
  supplierId : Option String
  purchaseDate : Option String
  items : Option (List InvoiceItem)
  status : Option String
  amountPaid : Option Int
deriving DecidableEq

/-- The purchase-invoice delta with no present field (`{}`). -/
def emptyPurchaseDelta : PurchaseInvoiceDelta :=
  { invoiceNumber := none, supplierId := none, purchaseDate := none,
    items := none, status := none, amountPaid := none }

/-- `Object.entries(data).length === 0` for a purchase-invoice delta. -/
def PurchaseInvoiceDelta.isEmpty (d : PurchaseInvoiceDelta) : Bool :=
  d.invoiceNumber.isNone && d.supplierId.isNone && d.purchaseDate.isNone &&
    d.items.isNone && d.status.isNone && d.amountPaid.isNone

/-- Effect of the generated `UPDATE purchase_invoices SET ...` on one row. -/
def applyPurchaseDelta (inv : PurchaseInvoice) (d : PurchaseInvoiceDelta) : PurchaseInvoice :=
  { inv with
    invoiceNumber := d.invoiceNumber.getD inv.invoiceNumber,
    supplierId := d.supplierId.getD inv.supplierId,
    purchaseDate := d.purchaseDate.getD inv.purchaseDate,
    items := d.items.getD inv.items,
    status := d.status.getD inv.status,
    amountPaid := d.amountPaid.getD inv.amountPaid }

/-- `purchaseInvoiceStore.update(id, data)` (`database.ts` lines
499-530): mirror image of the sales update — subtract the old items'
quantities, add the new items' quantities, then run the generated row
update, which is malformed SQL when `data` has no field. -/
def purchaseUpdate (db : DB) (id : String) (d : PurchaseInvoiceDelta) : TxResult (Option PurchaseInvoice) :=
  match db.purchaseInvoices.find? (fun r => r.id = id) with
  | none => .ok none db
  | some oldInvoice =>
      let ps1 := applyItemsStock (-1) oldInvoice.items db.products
      let newItems := d.items.getD oldInvoice.items
      let ps2 := applyItemsStock 1 newItems ps1
      if d.isEmpty then
        .err .malformedSql db
      else
        let db2 : DB :=
          { db with
            products := ps2,
            purchaseInvoices := db.purchaseInvoices.map
              (fun r => if r.id = id then applyPurchaseDelta r d else r) }
        .ok (db2.purchaseInvoices.find? (fun r => r.id = id)) db2

/-- A `Partial<QuotationData>` object, for the generic store update. -/
structure QuotationDelta where
  quotationNumber : Option String
  customerId : Option String
  quoteDate : Option String
  expiryDate : Option String
  items : Option (List InvoiceItem)
  status : Option String
deriving DecidableEq

/-- The quotation delta with no present field (`{}`). -/
def emptyQuotationDelta : QuotationDelta :=
  { quotationNumber := none, customerId := none, quoteDate := none,
    expiryDate := none, items := none, status := none }

/-- `Object.entries(data).length === 0` for a quotation delta. -/
def QuotationDelta.isEmpty (d : QuotationDelta) : Bool :=
  d.quotationNumber.isNone && d.customerId.isNone && d.quoteDate.isNone &&
    d.expiryDate.isNone && d.items.isNone && d.status.isNone

/-- Effect of the generated `UPDATE quotations SET ...` on one row. -/
def applyQuotationDelta (q : Quotation) (d : QuotationDelta) : Quotation :=
  { q with
    quotationNumber := d.quotationNumber.getD q.quotationNumber,
    customerId := d.customerId.getD q.customerId,
    quoteDate := d.quoteDate.getD q.quoteDate,
    expiryDate := d.expiryDate.getD q.expiryDate,
    items := d.items.getD q.items,
    status := d.status.getD q.status }

/-- The generic `createStore.update` (`database.ts` lines 232-245),
instantiated at the quotation store (which uses it unchanged, as do the
product, customer, supplier and stock-adjustment stores): an empty
partial short-circuits to `getById` with no write; otherwise the
present fields are written and the refreshed row is returned. -/
def quotationUpdate (db : DB) (id : String) (d : QuotationDelta) : Option Quotation × DB :=
  if d.isEmpty then (db.quotations.find? (fun r => r.id = id), db)
  else
    let db2 : DB :=
      { db with
        quotations := db.quotations.map
          (fun r => if r.id = id then applyQuotationDelta r d else r) }
    (db2.quotations.find? (fun r => r.id = id), db2)

/-- The generic `createStore.delete` (`database.ts` lines 246-250),
instantiated at the quotation store: run `DELETE FROM quotations WHERE
id = ?` and return `true` unconditionally — nothing inspects whether a
row was actually removed. -/
def quotationDelete (db : DB) (id : String) : Bool × DB :=
  (true, { db with quotations := db.quotations.filter (fun r => r.id ≠ id) })

/-- The item rewrite `productStore.delete` applies inside every linked
record: an item whose `productId` strictly equals the deleted id loses
its `productId` (JSON.stringify drops the `undefined` field) and gets
`customItemName = "[Deleted] " + name`; any other item is untouched. -/
def rewriteItem (pid name : String) (it : InvoiceItem) : InvoiceItem :=
  if it.productId = some pid then
    { it with productId := none, customItemName := some ("[Deleted] " ++ name) }
  else it

/-- The `updateLinkedItems(table)` helper of `productStore.delete`
(`database.ts` lines 292-328), generic over the record type: first scan
the whole table collecting `(id, rewritten items)` for exactly the rows
in which some item matches the deleted product, then run one
`UPDATE table SET items = ? WHERE id = ?` per collected row. -/
def updateLinkedItems {α : Type} (getId : α → String) (getItems : α → List InvoiceItem)
    (setItems : α → List InvoiceItem → α) (pid name : String) (rows : List α) : List α :=
  let toUpdate := rows.filterMap fun r =>
    if (getItems r).any (fun it => it.productId = some pid) then
      some (getId r, (getItems r).map (rewriteItem pid name))
    else none
  toUpdate.foldl
    (fun rs u => rs.map fun r => if getId r = u.1 then setItems r u.2 else r) rows

/-- `productStore.delete(id)` (`database.ts` lines 286-347): absent
product returns `false`; otherwise, inside one transaction, tombstone
the matching items of every sales invoice, purchase invoice and
quotation, delete the product's stock-adjustment rows, and delete the
product row. -/
def productDelete (db : DB) (id : String) : Bool × DB :=
  match db.products.find? (fun p => p.id = id) with
  | none => (false, db)
  | some productToDelete =>
      let sales := updateLinkedItems SalesInvoice.id SalesInvoice.items
        (fun r its => { r with items := its }) id productToDelete.name db.salesInvoices
      let purchases := updateLinkedItems PurchaseInvoice.id PurchaseInvoice.items
        (fun r its => { r with items := its }) id productToDelete.name db.purchaseInvoices
      let quots := updateLinkedItems Quotation.id Quotation.items
        (fun r its => { r with items := its }) id productToDelete.name db.quotations
      (true,
        { db with
          salesInvoices := sales,
          purchaseInvoices := purchases,
          quotations := quots,
          stockAdjustments := db.stockAdjustments.filter (fun a => a.productId ≠ id),
          products := db.products.filter (fun p => p.id ≠ id) })

/-- SQLite comparison of a column against an unbound statement
parameter.  `customerStore.delete` and `supplierStore.delete` call
`stmt.step([id])`, but the sql.js `step()` method takes no arguments,
so the `?` placeholder is never bound and is read as NULL; `col = NULL`
is never true in SQL, whatever the column holds. -/
def sqlEqUnbound (_ : String) : Bool := false

/-- `customerStore.delete(id)` (`database.ts` lines 351-377) as the
source actually behaves: the two linked-record guards run their
`SELECT 1 ... WHERE customerId = ? LIMIT 1` with the parameter unbound
(see `sqlEqUnbound`), find nothing, and the customer row is deleted
unconditionally. -/
def customerDelete (db : DB) (id : String) : Bool × DB :=
  if db.salesInvoices.any (fun inv => sqlEqUnbound inv.customerId) then (false, db)
  else if db.quotations.any (fun q => sqlEqUnbound q.customerId) then (false, db)
  else (true, { db with customers := db.customers.filter (fun c => c.id ≠ id) })

/-- `supplierStore.delete(id)` (`database.ts` lines 381-399), with the
same unbound-parameter guard as `customerDelete`. -/
def supplierDelete (db : DB) (id : String) : Bool × DB :=
  if db.purchaseInvoices.any (fun inv => sqlEqUnbound inv.supplierId) then (false, db)
  else (true, { db with suppliers := db.suppliers.filter (fun s => s.id ≠ id) })

/-- `DUMMY_COMPANY_DETAILS` from `constants.ts`: the built-in default
company details `settingsStore.get` falls back to. -/
def DUMMY_COMPANY_DETAILS : CompanyDetails :=
  { name := "LRGP",
    address :=
      { line1 := "456 Business Avenue", line2 := "Industrial Area",
        district := "Bangalore Urban", state := "Karnataka",
        country := "India", pincode := "560098" },
    email := "billing@zenithinc.com",
    phone := "+91 98765 43210",
    gstin := "29AAAAA0000A1Z5",
    logoUrl := "https://www.lrgp.in/images/logo.png" }

/-- `DUMMY_INVOICE_SETTINGS` from `constants.ts`: the built-in default
invoice settings `settingsStore.get` falls back to. -/
def DUMMY_INVOICE_SETTINGS : InvoiceSettings :=
  { accentColor := "#4f46e5",
    notes := "Thank you for your business!",
    terms := "Payment is due within 30 days. Late payments are subject to a 2% monthly interest charge.",
    bankDetails := some
      { bankName := "Bank of India", accountNumber := "826720110000378",
        ifscCode := "BKID0008267", branch := "Dindigul" },
    invoiceNumberPrefix := "INV-",
    nextInvoiceNumber := 5,
    quotationNumberPrefix := "QUO-",
    nextQuotationNumber := 4 }

/-- `SELECT value FROM settings WHERE key = ?`: `none` when no row
matches, otherwise the (nullable) TEXT value of the first match. -/
def lookupSetting (db : DB) (key : String) : Option (Option SettingText) :=
  (db.settings.find? (fun kv => kv.1 = key)).map Prod.snd

/-- The per-key read of `settingsStore.get`: a missing row, a NULL or
empty value, or text that fails `JSON.parse` all fall back to the
built-in default; well-formed stored JSON is returned as parsed. -/
def parsedOrDefault (row : Option (Option SettingText)) (dflt : SettingJson) : SettingJson :=
  match row with
  | some (some (SettingText.json d)) => d
  | _ => dflt

/-- `settingsStore.get()` (`database.ts` lines 133-169): read the two
keyed blobs, independently substituting the built-in default for a
missing or malformed one, then `REPLACE INTO settings` both (possibly
corrected) values inside one transaction, and return the pair. -/
def settingsGet (db : DB) : (SettingJson × SettingJson) × DB :=
  let companyDetails := parsedOrDefault (lookupSetting db "companyDetails")
    (SettingJson.company DUMMY_COMPANY_DETAILS)
  let invoiceSettings := parsedOrDefault (lookupSetting db "invoiceSettings")
    (SettingJson.invoice DUMMY_INVOICE_SETTINGS)
  let settings2 :=
    (db.settings.filter fun kv => kv.1 ≠ "companyDetails" && kv.1 ≠ "invoiceSettings") ++
      [("companyDetails", some (SettingText.json companyDetails)),
       ("invoiceSettings", some (SettingText.json invoiceSettings))]
  ((companyDetails, invoiceSettings), { db with settings := settings2 })

/-- Modelled from the spec: one cell of the persisted snapshot.  The
sql.js `Database.export` / `new Database(bytes)` pair (not part of the
sources under study) serializes the whole relational store into one
self-contained blob and parses it back; the blob is modelled as typed
table cells mirroring the SQLite storage classes, with the serialized
sub-documents (addresses, item arrays, settings text) carried as the
structured payload their text encodes. -/
inductive Cell where
  | nullv
  | text (s : String)
  | num (n : Int)
  | jaddr (a : Address)
  | jitems (l : List InvoiceItem)
  | jset (t : SettingText)
deriving DecidableEq

/-- A nullable TEXT column cell. -/
def optTextCell : Option String → Cell
  | none => Cell.nullv
  | some s => Cell.text s

/-- A nullable REAL column cell. -/
def optNumCell : Option Int → Cell
  | none => Cell.nullv
  | some n => Cell.num n

/-- Decode a nullable TEXT cell. -/
def cellOptText : Cell → Option (Option String)
  | Cell.nullv => some none
  | Cell.text s => some (some s)
  | _ => none

/-- Decode a nullable REAL cell. -/
def cellOptNum : Cell → Option (Option Int)
  | Cell.nullv => some none
  | Cell.num n => some (some n)
  | _ => none

/-- Encode one settings row. -/
def encodeSetting (kv : String × Option SettingText) : List Cell :=
  [Cell.text kv.1, match kv.2 with | none => Cell.nullv | some t => Cell.jset t]

/-- Decode one settings row. -/
def decodeSetting : List Cell → Option (String × Option SettingText)
  | [Cell.text k, Cell.nullv] => some (k, none)
  | [Cell.text k, Cell.jset t] => some (k, some t)
  | _ => none

/-- Encode one product row (`isService` stored as INTEGER 0/1). -/
def encodeProduct (p : Product) : List Cell :=
  [Cell.text p.id, Cell.text p.name, optTextCell p.sku, optTextCell p.hsnCode,
   optTextCell p.category, Cell.num p.salePrice, Cell.num p.purchasePrice,
   optNumCell p.taxRate, optNumCell p.stock, optNumCell p.reorderPoint,
   Cell.num (if p.isService then 1 else 0)]

/-- Decode one product row. -/
def decodeProduct : List Cell → Option Product
  | [Cell.text id, Cell.text name, sku, hsn, cat, Cell.num sp, Cell.num pp,
     tr, st, rp, Cell.num isv] => do
      let sku ← cellOptText sku
      let hsn ← cellOptText hsn
      let cat ← cellOptText cat
      let tr ← cellOptNum tr
      let st ← cellOptNum st
      let rp ← cellOptNum rp
      let isService ← if isv = 1 then some true else if isv = 0 then some false else none
      some { id := id, name := name, sku := sku, hsnCode := hsn, category := cat,
             salePrice := sp, purchasePrice := pp, taxRate := tr,
             isService := isService, stock := st, reorderPoint := rp }
  | _ => none

/-- Encode one customer row (addresses serialized in their column). -/
def encodeCustomer (c : Customer) : List Cell :=
  [Cell.text c.id, Cell.text c.name, optTextCell c.email, optTextCell c.phone,
   Cell.jaddr c.billingAddress, Cell.jaddr c.shippingAddress, optTextCell c.gstin]

/-- Decode one customer row. -/
def decodeCustomer : List Cell → Option Customer
  | [Cell.text id, Cell.text name, email, phone, Cell.jaddr ba, Cell.jaddr sa, gstin] => do
      let email ← cellOptText email
      let phone ← cellOptText phone
      let gstin ← cellOptText gstin
      some { id := id, name := name, email := email, phone := phone,
             billingAddress := ba, shippingAddress := sa, gstin := gstin }
  | _ => none

/-- Encode one supplier row. -/
def encodeSupplier (s : Supplier) : List Cell :=
  [Cell.text s.id, Cell.text s.name, optTextCell s.email, optTextCell s.phone,
   Cell.jaddr s.address, optTextCell s.gstin]

/-- Decode one supplier row. -/
def decodeSupplier : List Cell → Option Supplier
  | [Cell.text id, Cell.text name, email, phone, Cell.jaddr a, gstin] => do
      let email ← cellOptText email
      let phone ← cellOptText phone
      let gstin ← cellOptText gstin
      some { id := id, name := name, email := email, phone := phone,
             address := a, gstin := gstin }
  | _ => none

/-- Encode one sales invoice row (items serialized in their column). -/
def encodeSales (r : SalesInvoice) : List Cell :=
  [Cell.text r.id, Cell.text r.invoiceNumber, Cell.text r.customerId,
   Cell.text r.invoiceDate, Cell.text r.dueDate, Cell.jitems r.items,
   Cell.text r.status, Cell.num r.amountPaid]

/-- Decode one sales invoice row. -/
def decodeSales : List Cell → Option SalesInvoice
  | [Cell.text id, Cell.text n, Cell.text c, Cell.text d1, Cell.text d2,
     Cell.jitems its, Cell.text st, Cell.num ap] =>
      some { id := id, invoiceNumber := n, customerId := c, invoiceDate := d1,
             dueDate := d2, items := its, status := st, amountPaid := ap }
  | _ => none

/-- Encode one quotation row. -/
def encodeQuotation (r : Quotation) : List Cell :=
  [Cell.text r.id, Cell.text r.quotationNumber, Cell.text r.customerId,
   Cell.text r.quoteDate, Cell.text r.expiryDate, Cell.jitems r.items,
   Cell.text r.status]

/-- Decode one quotation row. -/
def decodeQuotation : List Cell → Option Quotation
  | [Cell.text id, Cell.text n, Cell.text c, Cell.text d1, Cell.text d2,
     Cell.jitems its, Cell.text st] =>
      some { id := id, quotationNumber := n, customerId := c, quoteDate := d1,
             expiryDate := d2, items := its, status := st }
  | _ => none

/-- Encode one purchase invoice row. -/
def encodePurchase (r : PurchaseInvoice) : List Cell :=
  [Cell.text r.id, Cell.text r.invoiceNumber, Cell.text r.supplierId,
   Cell.text r.purchaseDate, Cell.jitems r.items, Cell.text r.status,
   Cell.num r.amountPaid]

/-- Decode one purchase invoice row. -/
def decodePurchase : List Cell → Option PurchaseInvoice
  | [Cell.text id, Cell.text n, Cell.text s, Cell.text d1, Cell.jitems its,
     Cell.text st, Cell.num ap] =>
      some { id := id, invoiceNumber := n, supplierId := s, purchaseDate := d1,
             items := its, status := st, amountPaid := ap }
  | _ => none

/-- Encode one stock adjustment row. -/
def encodeAdjustment (a : StockAdjustment) : List Cell :=
  [Cell.text a.id, Cell.text a.productId, Cell.text a.date,
   Cell.num a.quantityChange, Cell.text a.reason]

/-- Decode one stock adjustment row. -/
def decodeAdjustment : List Cell → Option StockAdjustment
  | [Cell.text id, Cell.text p, Cell.text d, Cell.num q, Cell.text r] =>
      some { id := id, productId := p, date := d, quantityChange := q, reason := r }
  | _ => none

/-- Decode a whole table, failing if any row fails. -/
def decodeRows {α β : Type} (dec : β → Option α) : List β → Option (List α)
  | [] => some []
  | b :: bs =>
      match dec b, decodeRows dec bs with
      | some a, some rest => some (a :: rest)
      | _, _ => none

/-- A snapshot: the eight tables, each a list of rows of cells, in the
order `createTables` declares them. -/
def Snapshot : Type := List (List (List Cell))

/-- `exportDb` (`database.ts` line 122): serialize the entire current
store into one self-contained snapshot. -/
def exportDb (db : DB) : Snapshot :=
  [db.settings.map encodeSetting,
   db.products.map encodeProduct,
   db.customers.map encodeCustomer,
   db.suppliers.map encodeSupplier,
   db.salesInvoices.map encodeSales,
   db.quotations.map encodeQuotation,
   db.purchaseInvoices.map encodePurchase,
   db.stockAdjustments.map encodeAdjustment]

/-- `importDb` (`database.ts` lines 124-128): replace the whole store
with the one decoded from the snapshot (`none` models a blob `new
SQL.Database(data)` cannot parse). -/
def importDb : Snapshot → Option DB
  | [ts, tp, tc, tsu, tsi, tq, tpi, tsa] => do
      let settings ← decodeRows decodeSetting ts
      let products ← decodeRows decodeProduct tp
      let customers ← decodeRows decodeCustomer tc
      let suppliers ← decodeRows decodeSupplier tsu
      let salesInvoices ← decodeRows decodeSales tsi
      let quotations ← decodeRows decodeQuotation tq
      let purchaseInvoices ← decodeRows decodePurchase tpi
      let stockAdjustments ← decodeRows decodeAdjustment tsa
      some { settings := settings, products := products, customers := customers,
             suppliers := suppliers, salesInvoices := salesInvoices,
             quotations := quotations, purchaseInvoices := purchaseInvoices,
             stockAdjustments := stockAdjustments }
  | _ => none

lemma map_congr_fun {α β : Type} {f g : α → β} (l : List α) (h : ∀ a, f a = g a) :
    l.map f = l.map g := by
  induction l with
  | nil => rfl
  | cons a l ih => simp [h a, ih]

lemma map_eq_self_of_eq {α : Type} {f : α → α} {l : List α} (h : ∀ a ∈ l, f a = a) :
    l.map f = l := by
  induction l with
  | nil => rfl
  | cons a l ih =>
    simp only [List.map_cons, h a (by simp)]
    rw [ih fun b hb => h b (by simp [hb])]

/-- Net effect of one invoice's item loop on the product table: each
product's (non-NULL) stock moves by `sign` times the total quantity the
items attribute to it; NULL stocks stay NULL; nothing else changes. -/
lemma applyItemsStock_eq_map (sign : Int) (items : List InvoiceItem) (ps : List Product) :
    applyItemsStock sign items ps =
      ps.map fun p => { p with stock := p.stock.map fun s => s + sign * itemsQtyFor p.id items } := by
  induction items generalizing ps with
  | nil =>
    have h : ∀ p : Product,
        ({ p with stock := p.stock.map fun s => s + sign * itemsQtyFor p.id [] } : Product) = p := by
      intro p
      have hs : p.stock.map (fun s => s + sign * itemsQtyFor p.id []) = p.stock := by
        cases p.stock <;> simp [itemsQtyFor]
      rw [hs]
    rw [map_eq_self_of_eq fun p _ => h p]
    rfl
  | cons it rest ih =>
    have hstep : applyItemsStock sign (it :: rest) ps = applyItemsStock sign rest
        (if jsTruthy it.productId then
          updateStockBy (sign * it.quantity) (it.productId.getD "") ps else ps) := rfl
    rw [hstep]
    by_cases h : jsTruthy it.productId = true
    · obtain ⟨s0, hs0⟩ : ∃ s0, it.productId = some s0 := by
        cases hp : it.productId with
        | none => rw [hp] at h; simp [jsTruthy] at h
        | some s => exact ⟨s, rfl⟩
      rw [if_pos h, ih, hs0, updateStockBy, List.map_map]
      refine map_congr_fun ps fun p => ?_
      simp only [Function.comp_apply, Option.getD_some]
      by_cases hid : p.id = s0
      · rw [if_pos hid]
        have : itemsQtyFor p.id (it :: rest) = it.quantity + itemsQtyFor p.id rest := by
          rw [itemsQtyFor, if_pos ⟨h, by rw [hs0, hid]⟩]
        rw [this]
        simp only [Option.map_map]
        cases p.stock with
        | none => rfl
        | some s =>
          simp only [Option.map_some', Function.comp_apply]
          congr 1
          congr 1
          ring
      · rw [if_neg hid]
        have : itemsQtyFor p.id (it :: rest) = itemsQtyFor p.id rest := by
          rw [itemsQtyFor, if_neg, zero_add]
          rintro ⟨-, hcontra⟩
          rw [hs0] at hcontra
          exact hid (by injection hcontra with hh; exact hh.symm)
        rw [this]
    · rw [if_neg h, ih]
      refine map_congr_fun ps fun p => ?_
      have : itemsQtyFor p.id (it :: rest) = itemsQtyFor p.id rest := by
        rw [itemsQtyFor, if_neg, zero_add]
        rintro ⟨hcontra, -⟩
        exact h hcontra
      rw [this]

/-- Reversing and reapplying the same item list is the identity on the
product table. -/
lemma applyItemsStock_cancel (items : List InvoiceItem) (ps : List Product) :
    applyItemsStock (-1) items (applyItemsStock 1 items ps) = ps := by
  rw [applyItemsStock_eq_map, applyItemsStock_eq_map, List.map_map]
  refine map_eq_self_of_eq fun p _ => ?_
  simp only [Function.comp_apply, Option.map_map]
  have hs : p.stock.map ((fun s => s + (-1) * itemsQtyFor p.id items) ∘
      (fun s => s + 1 * itemsQtyFor p.id items)) = p.stock := by
    cases p.stock with
    | none => rfl
    | some s =>
      simp only [Option.map_some', Function.comp_apply]
      congr 1
      ring
  rw [hs]

/-- Reverse-then-reapply with different item lists: each product's
stock moves by the old total minus the new total. -/
lemma applyItemsStock_reverse_reapply (oldIts newIts : List InvoiceItem) (ps : List Product) :
    applyItemsStock (-1) newIts (applyItemsStock 1 oldIts ps) = ps.map fun p => { p with stock := p.stock.map fun s => s + itemsQtyFor p.id oldIts - itemsQtyFor p.id newIts } := by
  rw [applyItemsStock_eq_map, applyItemsStock_eq_map, List.map_map]
  refine map_congr_fun ps fun p => ?_
  simp only [Function.comp_apply, Option.map_map]
  congr 1
  cases p.stock with
  | none => rfl
  | some s =>
    simp only [Option.map_some', Function.comp_apply]
    congr 1
    ring

/-- C1: for a product `p` present in the store with numeric stock `s`,
`adjustStock(p.id, q, reason)` fails with the insufficient-stock
condition and performs no writes (the store is exactly the input store)
whenever `q < 0` and `s + q < 0`; otherwise it atomically appends one
stock-adjustment row and adds `q` to that product's stock. -/
theorem adjustStock_spec (db : DB) (pid : String) (q : Int) (saId date reason : String)
    (p : Product) (s : Int)
    (hfind : db.products.find? (fun r => r.id = pid) = some p)
    (hs : p.stock = some s) :
    ((q < 0 ∧ s + q < 0) →
      adjustStock db pid q saId date reason = TxResult.err DbError.insufficientStock db) ∧
    ((0 ≤ q ∨ 0 ≤ s + q) →
      ∃ v, adjustStock db pid q saId date reason = TxResult.ok v
        { db with
          stockAdjustments := db.stockAdjustments ++
            [{ id := saId, productId := pid, date := date,
               quantityChange := q, reason := reason }],
          products := db.products.map fun r =>
            if r.id = pid then { r with stock := r.stock.map (· + q) } else r }) := by
  constructor
  · rintro ⟨h1, h2⟩
    unfold adjustStock
    rw [hfind]
    dsimp only
    rw [if_pos]
    refine ⟨h1, ?_⟩
    rw [hs]
    simpa using h2
  · intro h
    unfold adjustStock
    rw [hfind]
    dsimp only
    rw [if_neg]
    · exact ⟨_, rfl⟩
    · rintro ⟨h1, h2⟩
      rw [hs] at h2
      simp only [Option.getD_some] at h2
      rcases h with h | h <;> omega

/-- C3: creating a sales invoice always succeeds, appends exactly the
new row, writes no stock-adjustment row, and moves each product's stock
down by the total quantity the new items attribute to it (with no
negative-stock check: this holds even when the result is negative);
every other table is untouched. -/
theorem salesCreate_spec (db : DB) (newId : String) (d : SalesInvoiceData) :
    ∃ row db2, salesCreate db newId d = TxResult.ok row db2 ∧
      db2.salesInvoices = db.salesInvoices ++ [row] ∧
      db2.stockAdjustments = db.stockAdjustments ∧
      db2.products = db.products.map (fun p => { p with stock := p.stock.map fun s => s - itemsQtyFor p.id d.items }) ∧
      db2.customers = db.customers ∧ db2.suppliers = db.suppliers ∧
      db2.quotations = db.quotations ∧ db2.purchaseInvoices = db.purchaseInvoices ∧
      db2.settings = db.settings := by
  refine ⟨_, _, rfl, rfl, rfl, ?_, rfl, rfl, rfl, rfl, rfl⟩
  show applyItemsStock (-1) d.items db.products = _
  rw [applyItemsStock_eq_map]
  refine map_congr_fun db.products fun p => ?_
  congr 1
  cases p.stock with
  | none => rfl
  | some s =>
    simp only [Option.map_some']
    congr 1
    ring

/-- C10: a sales-invoice update whose data carries no `items` field
leaves every product's stock unchanged — the old items are added back
and the very same list is subtracted again, netting to zero — whatever
else the update does (this also covers the missing-row and
empty-partial outcomes, whose final store is the input store). -/
theorem salesUpdate_no_items_frame (db : DB) (id : String) (d : SalesInvoiceDelta)
    (hni : d.items = none) :
    (salesUpdate db id d).dbOf.products = db.products := by
  unfold salesUpdate
  cases hfind : db.salesInvoices.find? (fun r => r.id = id) with
  | none => rfl
  | some oldInvoice =>
    simp only [hni, Option.getD_none]
    by_cases he : d.isEmpty
    · simp [he, TxResult.dbOf]
    · simp [he, TxResult.dbOf, applyItemsStock_cancel]

/-- An empty store, used by the concrete test fixtures. -/
def emptyDB : DB :=
  { settings := [], products := [], customers := [], suppliers := [],
    salesInvoices := [], quotations := [], purchaseInvoices := [], stockAdjustments := [] }

/-- Fixture: a stocked physical product with 150 units on hand. -/
def prodA : Product :=
  { id := "A", name := "Widget", sku := some "W-1", hsnCode := none, category := none,
    salePrice := 100, purchasePrice := 80, taxRate := some 18, isService := false,
    stock := some 150, reorderPoint := some 10 }

/-- Fixture: an empty structured address. -/
def addr0 : Address :=
  { line1 := "", line2 := "", district := "", state := "", country := "", pincode := "" }

/-- Fixture: an invoice line item selling 10 units of product A. -/
def item10 : InvoiceItem :=
  { productId := some "A", customItemName := none, hsnCode := none,
    quantity := 10, rate := 100, taxRate := 18 }

/-- Fixture: the same line item with quantity 25. -/
def item25 : InvoiceItem :=
  { productId := some "A", customItemName := none, hsnCode := none,
    quantity := 25, rate := 100, taxRate := 18 }

/-- C9: the generic record-store delete (instantiated at the quotation
store, which uses it verbatim) reports success for every id: it filters
the table and returns `true`, and when no row carries the id — so the
delete removed nothing — the store is returned unchanged and the result
is still `true`. -/
theorem genericDelete_returns_true (db : DB) (id : String) :
    (quotationDelete db id).1 = true ∧
    (quotationDelete db id).2.quotations = db.quotations.filter (fun r => r.id ≠ id) ∧
    ((∀ r ∈ db.quotations, r.id ≠ id) → (quotationDelete db id).2 = db) := by
  refine ⟨rfl, rfl, fun h => ?_⟩
  unfold quotationDelete
  have hf : db.quotations.filter (fun r => r.id ≠ id) = db.quotations := by
    rw [List.filter_eq_self]
    intro a ha
    simpa using h a ha
  simp only [hf]

/-- Witness for `genericDelete_returns_true`: deleting an id that no
quotation carries still returns `true` and changes nothing. -/
theorem genericDelete_returns_true_witness :
    (quotationDelete emptyDB "qu-404").1 = true ∧ (quotationDelete emptyDB "qu-404").2 = emptyDB :=
  ⟨(genericDelete_returns_true emptyDB "qu-404").1,
   (genericDelete_returns_true emptyDB "qu-404").2.2 (by intro r hr; cases hr)⟩

/-- Fixture: a customer, a supplier, and documents referencing both. -/
def custC1 : Customer :=
  { id := "c1", name := "Acme", email := none, phone := none,
    billingAddress := addr0, shippingAddress := addr0, gstin := none }

/-- Fixture: a supplier referenced by a purchase invoice. -/
def suppS1 : Supplier :=
  { id := "s1", name := "Mills", email := none, phone := none, address := addr0, gstin := none }

/-- Fixture: a sales invoice billed to customer `c1`. -/
def invForC1 : SalesInvoice :=
  { id := "si-1", invoiceNumber := "INV-1", customerId := "c1", invoiceDate := "2024-01-01",
    dueDate := "2024-02-01", items := [item10], status := "Unpaid", amountPaid := 0 }

/-- Fixture: a quotation addressed to customer `c1`. -/
def quoForC1 : Quotation :=
  { id := "qu-1", quotationNumber := "Q-1", customerId := "c1", quoteDate := "2024-01-01",
    expiryDate := "2024-02-01", items := [item10], status := "Sent" }

/-- Fixture: a purchase invoice from supplier `s1`. -/
def pinvForS1 : PurchaseInvoice :=
  { id := "pi-1", invoiceNumber := "PINV-1", supplierId := "s1", purchaseDate := "2024-01-01",
    items := [item10], status := "Unpaid", amountPaid := 0 }

/-- Fixture: a store in which `c1` and `s1` are both referenced. -/
def dbC5 : DB :=
  { emptyDB with
    customers := [custC1], suppliers := [suppS1],
    salesInvoices := [invForC1], quotations := [quoForC1], purchaseInvoices := [pinvForS1] }

/-- C5 (observed behaviour): the customer- and supplier-delete guards
run their linked-record probe with the statement parameter unbound
(`stmt.step([id])` — sql.js `step()` ignores arguments), so the probe
compares `customerId` / `supplierId` against NULL, never matches, and
the delete always proceeds; in particular a customer referenced by a
sales invoice and a quotation, and a supplier referenced by a purchase
invoice, are deleted with success reported, contradicting the claimed
referential-conflict failure. -/
theorem customerDelete_check_never_fires :
    (∀ (db : DB) (id : String),
      customerDelete db id = (true, { db with customers := db.customers.filter fun c => c.id ≠ id }) ∧
      supplierDelete db id = (true, { db with suppliers := db.suppliers.filter fun s => s.id ≠ id })) ∧
    customerDelete dbC5 "c1" = (true, { dbC5 with customers := [] }) ∧
    supplierDelete dbC5 "s1" = (true, { dbC5 with suppliers := [] }) := by
  refine ⟨fun db id => ⟨?_, ?_⟩, ?_, ?_⟩
  · unfold customerDelete
    simp [sqlEqUnbound]
  · unfold supplierDelete
    simp [sqlEqUnbound]
  · decide
  · decide

/-- Counterexample to C8: the sales-invoice store's update with an
empty partial is not a no-op success — on an existing invoice the
generated `UPDATE sales_invoices SET  WHERE id = ?` is malformed SQL,
so the operation raises an error (the transaction rolls back, leaving
the store unchanged). -/
theorem salesUpdate_empty_raises :
    salesUpdate dbC5 "si-1" emptySalesDelta = TxResult.err DbError.malformedSql dbC5 := by
  decide

/-- C8 as amended: the generic record-store update (used by the
product, customer, supplier, quotation and stock-adjustment stores;
instantiated here at the quotation store) short-circuits an empty
partial into a read — the current record is returned and nothing is
written; the sales- and purchase-invoice stores instead raise an error
on an empty partial (malformed SQL from the empty `SET` clause), with
the transaction rolled back so the store is left unchanged. -/
theorem update_empty_delta_spec :
    (∀ (db : DB) (id : String),
      quotationUpdate db id emptyQuotationDelta = (db.quotations.find? (fun r => r.id = id), db)) ∧
    (∀ (db : DB) (id : String) (inv : SalesInvoice),
      db.salesInvoices.find? (fun r => r.id = id) = some inv →
      salesUpdate db id emptySalesDelta = TxResult.err DbError.malformedSql db) ∧
    (∀ (db : DB) (id : String) (inv : PurchaseInvoice),
      db.purchaseInvoices.find? (fun r => r.id = id) = some inv →
      purchaseUpdate db id emptyPurchaseDelta = TxResult.err DbError.malformedSql db) := by
  refine ⟨fun db id => ?_, fun db id inv hfind => ?_, fun db id inv hfind => ?_⟩
  · unfold quotationUpdate
    rw [if_pos]
    rfl
  · unfold salesUpdate
    rw [hfind]
    rfl
  · unfold purchaseUpdate
    rw [hfind]
    rfl

/-- Witness for `update_empty_delta_spec`: on the fixture store, the
quotation store's empty update returns the stored quotation without
change, and the invoice stores' empty updates error out. -/
theorem update_empty_delta_spec_witness :
    quotationUpdate dbC5 "qu-1" emptyQuotationDelta = (some quoForC1, dbC5) ∧
    salesUpdate dbC5 "si-1" emptySalesDelta = TxResult.err DbError.malformedSql dbC5 ∧
    purchaseUpdate dbC5 "pi-1" emptyPurchaseDelta = TxResult.err DbError.malformedSql dbC5 := by
  refine ⟨?_, ?_, ?_⟩
  · rw [update_empty_delta_spec.1 dbC5 "qu-1"]
    decide
  · exact update_empty_delta_spec.2.1 dbC5 "si-1" invForC1 (by decide)
  · exact update_empty_delta_spec.2.2 dbC5 "pi-1" pinvForS1 (by decide)

/-- The stock of one product, read back from the store. -/
def stockOf (db : DB) (pid : String) : Option Int :=
  (db.products.find? (fun p => p.id = pid)).bind fun p => p.stock

/-- Fixture: a store holding only product A with 150 units. -/
def dbC2 : DB := { emptyDB with products := [prodA] }

/-- Fixture: the creation payload of a sales invoice selling 10 units
of product A. -/
def invC2data : SalesInvoiceData :=
  { invoiceNumber := "INV-1", customerId := "c1", invoiceDate := "2024-01-01",
    dueDate := "2024-02-01", items := [item10], status := "Unpaid", amountPaid := none }

/-- Fixture: a partial update replacing the invoice's items with the
quantity-25 line. -/
def deltaC2 : SalesInvoiceDelta := { emptySalesDelta with items := some [item25] }

/-- C2: a sales-invoice update reverses the old items' stock effect,
applies the new items' effect and writes the updated row, all in one
atomic unit — each product's stock moves by (old total − new total) —
and consequently the create → update → delete scenario on product A
(stock 150, sell 10, re-quantify to 25, delete) reads back stocks
140, 125 and 150. -/
theorem salesInvoice_lifecycle_spec :
    (∀ (db : DB) (id : String) (d : SalesInvoiceDelta) (old : SalesInvoice),
      db.salesInvoices.find? (fun r => r.id = id) = some old →
      d.isEmpty = false →
      ∃ v, salesUpdate db id d = TxResult.ok v
        { db with
          products := db.products.map fun p => { p with stock := p.stock.map fun s => s + itemsQtyFor p.id old.items - itemsQtyFor p.id (d.items.getD old.items) },
          salesInvoices := db.salesInvoices.map fun r => if r.id = id then applySalesDelta r d else r }) ∧
    stockOf (salesCreate dbC2 "si-1" invC2data).dbOf "A" = some 140 ∧
    stockOf (salesUpdate (salesCreate dbC2 "si-1" invC2data).dbOf "si-1" deltaC2).dbOf "A" = some 125 ∧
    stockOf (salesDelete (salesUpdate (salesCreate dbC2 "si-1" invC2data).dbOf "si-1" deltaC2).dbOf "si-1").dbOf "A" = some 150 := by
  refine ⟨fun db id d old hfind hne => ?_, by decide, by decide, by decide⟩
  unfold salesUpdate
  rw [hfind]
  dsimp only
  rw [if_neg (by simp [hne])]
  rw [applyItemsStock_reverse_reapply old.items (d.items.getD old.items) db.products]
  exact ⟨_, rfl⟩

/-- Witness for `salesInvoice_lifecycle_spec`: the general part applied
to the concrete store after the scenario's create step, replacing the
10-unit line with the 25-unit line. -/
theorem salesInvoice_lifecycle_spec_witness :
    ∃ v, salesUpdate (salesCreate dbC2 "si-1" invC2data).dbOf "si-1" deltaC2 = TxResult.ok v
      { (salesCreate dbC2 "si-1" invC2data).dbOf with
        products := (salesCreate dbC2 "si-1" invC2data).dbOf.products.map fun p => { p with stock := p.stock.map fun s => s + itemsQtyFor p.id [item10] - itemsQtyFor p.id (deltaC2.items.getD [item10]) },
        salesInvoices := (salesCreate dbC2 "si-1" invC2data).dbOf.salesInvoices.map fun r => if r.id = "si-1" then applySalesDelta r deltaC2 else r } := by
  refine salesInvoice_lifecycle_spec.1 (salesCreate dbC2 "si-1" invC2data).dbOf "si-1" deltaC2
    { id := "si-1", invoiceNumber := "INV-1", customerId := "c1", invoiceDate := "2024-01-01",
      dueDate := "2024-02-01", items := [item10], status := "Unpaid", amountPaid := 0 }
    (by decide) (by decide)

/-- Witness for `adjustStock_spec`: on the one-product fixture store,
`adjustStock("A", -200, "count")` fails with the insufficient-stock
condition leaving the store intact, and `adjustStock("A", 50, ...)`
succeeds, appending the log row and raising the stock. -/
theorem adjustStock_spec_witness :
    adjustStock dbC2 "A" (-200) "sa-1" "2024-03-01" "count" =
      TxResult.err DbError.insufficientStock dbC2 ∧
    ∃ v, adjustStock dbC2 "A" 50 "sa-2" "2024-03-02" "restock" = TxResult.ok v
      { dbC2 with
        stockAdjustments := dbC2.stockAdjustments ++
          [{ id := "sa-2", productId := "A", date := "2024-03-02",
             quantityChange := 50, reason := "restock" }],
        products := dbC2.products.map fun r =>
          if r.id = "A" then { r with stock := r.stock.map (· + 50) } else r } :=
  ⟨(adjustStock_spec dbC2 "A" (-200) "sa-1" "2024-03-01" "count" prodA 150 (by decide) rfl).1
      ⟨by norm_num, by norm_num⟩,
   (adjustStock_spec dbC2 "A" 50 "sa-2" "2024-03-02" "restock" prodA 150 (by decide) rfl).2
      (Or.inl (by norm_num))⟩

/-- Helper for the settings theorem: a row that is not well-formed JSON
in any shape falls back to the supplied default. -/
lemma parsedOrDefault_of_not_json (row : Option (Option SettingText)) (dflt : SettingJson)
    (h : ∀ d, row ≠ some (some (SettingText.json d))) : parsedOrDefault row dflt = dflt := by
  match row with
  | none => rfl
  | some none => rfl
  | some (some (SettingText.json d)) => exact absurd rfl (h d)
  | some (some (SettingText.malformed r)) => rfl

/-- Helper: `find?` skips a prefix none of whose elements satisfy the
predicate. -/
lemma find?_append_of_none {α : Type} (p : α → Bool) (l1 l2 : List α)
    (h : ∀ a ∈ l1, p a = false) : List.find? p (l1 ++ l2) = List.find? p l2 := by
  induction l1 with
  | nil => rfl
  | cons a l1 ih =>
    rw [List.cons_append, List.find?_cons, h a (by simp)]
    exact ih fun b hb => h b (by simp [hb])

/-- Helper: the settings rows kept by the re-persist filter match
neither fixed key. -/
lemma settings_filter_keys (db : DB) (key : String)
    (hk : key = "companyDetails" ∨ key = "invoiceSettings") :
    ∀ kv ∈ db.settings.filter (fun kv => kv.1 ≠ "companyDetails" && kv.1 ≠ "invoiceSettings"),
      (decide (kv.1 = key)) = false := by
  intro kv hkv
  have hcond := List.of_mem_filter hkv
  simp only [Bool.and_eq_true, ne_eq, decide_not, Bool.not_eq_true', decide_eq_false_iff_not] at hcond
  rcases hk with hk | hk <;> rw [hk] <;> simp [hcond.1, hcond.2]

/-- C7: `settingsStore.get` returns, for each of the two keys
independently, the stored value when it is present and well-formed JSON
and the built-in default otherwise (missing row, NULL value or
malformed text), and it persists what it returns, so an immediately
following read returns the same pair. -/
theorem settingsGet_spec (db : DB) :
    (∀ d, lookupSetting db "companyDetails" = some (some (SettingText.json d)) →
      ((settingsGet db).1).1 = d) ∧
    ((∀ d, lookupSetting db "companyDetails" ≠ some (some (SettingText.json d))) →
      ((settingsGet db).1).1 = SettingJson.company DUMMY_COMPANY_DETAILS) ∧
    (∀ d, lookupSetting db "invoiceSettings" = some (some (SettingText.json d)) →
      ((settingsGet db).1).2 = d) ∧
    ((∀ d, lookupSetting db "invoiceSettings" ≠ some (some (SettingText.json d))) →
      ((settingsGet db).1).2 = SettingJson.invoice DUMMY_INVOICE_SETTINGS) ∧
    (settingsGet ((settingsGet db).2)).1 = (settingsGet db).1 := by
  refine ⟨fun d hd => ?_, fun h => ?_, fun d hd => ?_, fun h => ?_, ?_⟩
  · show parsedOrDefault (lookupSetting db "companyDetails")
      (SettingJson.company DUMMY_COMPANY_DETAILS) = d
    rw [hd]
    rfl
  · exact parsedOrDefault_of_not_json _ _ h
  · show parsedOrDefault (lookupSetting db "invoiceSettings")
      (SettingJson.invoice DUMMY_INVOICE_SETTINGS) = d
    rw [hd]
    rfl
  · exact parsedOrDefault_of_not_json _ _ h
  · have hc : lookupSetting ((settingsGet db).2) "companyDetails" =
        some (some (SettingText.json ((settingsGet db).1).1)) := by
      show (List.find? _ (_ ++ _)).map Prod.snd = _
      rw [find?_append_of_none _ _ _ (settings_filter_keys db "companyDetails" (Or.inl rfl))]
      rfl
    have hi : lookupSetting ((settingsGet db).2) "invoiceSettings" =
        some (some (SettingText.json ((settingsGet db).1).2)) := by
      show (List.find? _ (_ ++ _)).map Prod.snd = _
      rw [find?_append_of_none _ _ _ (settings_filter_keys db "invoiceSettings" (Or.inr rfl))]
      rfl
    have h1 : ((settingsGet ((settingsGet db).2)).1).1 = ((settingsGet db).1).1 := by
      show parsedOrDefault (lookupSetting ((settingsGet db).2) "companyDetails") _ = _
      rw [hc]
      rfl
    have h2 : ((settingsGet ((settingsGet db).2)).1).2 = ((settingsGet db).1).2 := by
      show parsedOrDefault (lookupSetting ((settingsGet db).2) "invoiceSettings") _ = _
      rw [hi]
      rfl
    exact Prod.ext h1 h2

/-- Fixture: a stored, well-formed invoice-settings document that
differs from the built-in default. -/
def storedInvoiceDoc : SettingJson :=
  SettingJson.invoice { DUMMY_INVOICE_SETTINGS with nextInvoiceNumber := 42 }

/-- Fixture: a settings table with malformed company details and
well-formed invoice settings. -/
def dbC7 : DB :=
  { emptyDB with
    settings := [("companyDetails", some (SettingText.malformed "oops")),
                 ("invoiceSettings", some (SettingText.json storedInvoiceDoc))] }

/-- Witness for `settingsGet_spec`: the malformed company blob falls
back to the default without disturbing the stored invoice settings,
and a second read returns the same pair. -/
theorem settingsGet_spec_witness :
    ((settingsGet dbC7).1).1 = SettingJson.company DUMMY_COMPANY_DETAILS ∧
    ((settingsGet dbC7).1).2 = storedInvoiceDoc ∧
    (settingsGet ((settingsGet dbC7).2)).1 = (settingsGet dbC7).1 := by
  refine ⟨(settingsGet_spec dbC7).2.1 ?_, (settingsGet_spec dbC7).2.2.1 storedInvoiceDoc (by decide),
    (settingsGet_spec dbC7).2.2.2.2⟩
  intro d
  rw [show lookupSetting dbC7 "companyDetails" = some (some (SettingText.malformed "oops")) from by decide]
  simp

lemma map_congr_mem {α β : Type} {f g : α → β} (l : List α) (h : ∀ a ∈ l, f a = g a) :
    l.map f = l.map g := by
  induction l with
  | nil => rfl
  | cons a l ih =>
    simp only [List.map_cons, h a (by simp)]
    rw [ih fun b hb => h b (by simp [hb])]

/-- Folding a list of per-id `UPDATE`s, each a map over the whole
table, is the same as mapping each row through the fold of the updates. -/
lemma foldl_map_updates {α : Type} (getId : α → String) (setItems : α → List InvoiceItem → α)
    (us : List (String × List InvoiceItem)) (rows : List α) :
    us.foldl (fun rs u => rs.map fun r => if getId r = u.1 then setItems r u.2 else r) rows =
      rows.map fun r => us.foldl (fun r u => if getId r = u.1 then setItems r u.2 else r) r := by
  induction us generalizing rows with
  | nil => simp
  | cons u us ih =>
    simp only [List.foldl_cons]
    rw [ih, List.map_map]
    rfl

/-- A row whose id none of the updates mention is left alone. -/
lemma foldl_update_not_mem {α : Type} (getId : α → String) (setItems : α → List InvoiceItem → α)
    (us : List (String × List InvoiceItem)) (r : α)
    (h : ∀ u ∈ us, u.1 ≠ getId r) :
    us.foldl (fun r u => if getId r = u.1 then setItems r u.2 else r) r = r := by
  induction us with
  | nil => rfl
  | cons u us ih =>
    rw [List.foldl_cons, if_neg fun he => h u (by simp) he.symm]
    exact ih fun v hv => h v (by simp [hv])

/-- A row mentioned by exactly one update (the update key list has no
duplicates) ends up with that update's items. -/
lemma foldl_update_mem {α : Type} (getId : α → String) (setItems : α → List InvoiceItem → α)
    (hsetid : ∀ r its, getId (setItems r its) = getId r)
    (us : List (String × List InvoiceItem)) (r : α) (its : List InvoiceItem)
    (hnd : (us.map Prod.fst).Nodup)
    (hmem : (getId r, its) ∈ us) :
    us.foldl (fun r u => if getId r = u.1 then setItems r u.2 else r) r = setItems r its := by
  induction us with
  | nil => cases hmem
  | cons u us ih =>
    rw [List.map_cons, List.nodup_cons] at hnd
    rcases List.mem_cons.mp hmem with heq | hmem'
    · rw [List.foldl_cons, ← heq, if_pos rfl]
      refine foldl_update_not_mem getId setItems us (setItems r its) fun v hv hcontra => ?_
      rw [hsetid] at hcontra
      apply hnd.1
      have hu1 : u.1 = getId r := by rw [← heq]
      rw [hu1, ← hcontra]
      exact List.mem_map_of_mem Prod.fst hv
    · have hne : u.1 ≠ getId r := by
        intro hcontra
        apply hnd.1
        rw [hcontra]
        exact List.mem_map_of_mem Prod.fst hmem'
      rw [List.foldl_cons, if_neg fun he => hne he.symm]
      exact ih hnd.2 hmem'

/-- The keys collected by the tombstone scan form a sublist of the
table's id column. -/
lemma toUpdate_keys_sublist {α : Type} (getId : α → String) (P : α → Bool)
    (g : α → List InvoiceItem) (rows : List α) :
    ((rows.filterMap fun r => if P r then some (getId r, g r) else none).map Prod.fst).Sublist
      (rows.map getId) := by
  induction rows with
  | nil => simp
  | cons r rows ih =>
    by_cases h : P r
    · simp only [List.filterMap_cons, h, if_true, List.map_cons]
      exact List.Sublist.cons₂ _ ih
    · simp only [List.filterMap_cons, h, if_false, List.map_cons]
      exact List.Sublist.cons _ ih

/-- The collect-then-update pass of `productStore.delete` is, on a
table whose ids are pairwise distinct (the primary-key invariant),
exactly the per-row item rewrite: rows with a matching item get their
rewritten item list, rows without one are untouched. -/
lemma updateLinkedItems_eq_map {α : Type} (getId : α → String) (getItems : α → List InvoiceItem)
    (setItems : α → List InvoiceItem → α)
    (hsetid : ∀ r its, getId (setItems r its) = getId r)
    (hsetget : ∀ r, setItems r (getItems r) = r)
    (pid name : String) (rows : List α)
    (hnd : (rows.map getId).Nodup) :
    updateLinkedItems getId getItems setItems pid name rows =
      rows.map fun r => setItems r ((getItems r).map (rewriteItem pid name)) := by
  unfold updateLinkedItems
  rw [foldl_map_updates]
  refine map_congr_mem rows fun r hr => ?_
  by_cases hP : (getItems r).any (fun it => it.productId = some pid)
  · apply foldl_update_mem getId setItems hsetid _ r ((getItems r).map (rewriteItem pid name))
    · exact ((toUpdate_keys_sublist getId _ _ rows).nodup) hnd
    · exact List.mem_filterMap.mpr ⟨r, hr, by rw [if_pos hP]⟩
  · rw [foldl_update_not_mem]
    · have hitems : (getItems r).map (rewriteItem pid name) = getItems r := by
        refine map_eq_self_of_eq fun it hit => ?_
        unfold rewriteItem
        rw [if_neg]
        intro hcontra
        exact hP (List.any_eq_true.mpr ⟨it, hit, by simp [hcontra]⟩)
      rw [hitems, hsetget]
    · intro u hu
      obtain ⟨r', hr', hu'⟩ := List.mem_filterMap.mp hu
      by_cases hP' : (getItems r').any (fun it => it.productId = some pid)
      · rw [if_pos hP'] at hu'
        injection hu' with hu'
        intro hcontra
        rw [← hu'] at hcontra
        have hr'r : r' = r :=
          List.inj_on_of_nodup_map hnd hr' hr hcontra
        rw [hr'r] at hP'
        exact hP hP'
      · rw [if_neg hP'] at hu'
        cases hu'

/-- C4: deleting a product present in the store (on tables satisfying
the primary-key invariant that ids are pairwise distinct) succeeds and,
in one atomic unit, rewrites in every sales invoice, purchase invoice
and quotation exactly the items referencing it — clearing `productId`
and setting the tombstone `customItemName`, while quantity, rate and
tax rate are preserved and non-matching items are untouched — then
deletes that product's stock-adjustment rows and the product row;
customers, suppliers and settings are unaffected. -/
theorem productDelete_spec (db : DB) (pid : String) (p : Product)
    (hfind : db.products.find? (fun r => r.id = pid) = some p)
    (hnds : (db.salesInvoices.map SalesInvoice.id).Nodup)
    (hndp : (db.purchaseInvoices.map PurchaseInvoice.id).Nodup)
    (hndq : (db.quotations.map Quotation.id).Nodup) :
    productDelete db pid = (true,
      { db with
        salesInvoices := db.salesInvoices.map fun r => { r with items := r.items.map (rewriteItem pid p.name) },
        purchaseInvoices := db.purchaseInvoices.map fun r => { r with items := r.items.map (rewriteItem pid p.name) },
        quotations := db.quotations.map fun r => { r with items := r.items.map (rewriteItem pid p.name) },
        stockAdjustments := db.stockAdjustments.filter fun a => a.productId ≠ pid,
        products := db.products.filter fun q => q.id ≠ pid }) ∧
    (∀ it : InvoiceItem,
      (rewriteItem pid p.name it).quantity = it.quantity ∧
      (rewriteItem pid p.name it).rate = it.rate ∧
      (rewriteItem pid p.name it).taxRate = it.taxRate ∧
      (it.productId = some pid →
        (rewriteItem pid p.name it).productId = none ∧
        (rewriteItem pid p.name it).customItemName = some ("[Deleted] " ++ p.name)) ∧
      (it.productId ≠ some pid → rewriteItem pid p.name it = it)) := by
  constructor
  · unfold productDelete
    rw [hfind]
    dsimp only
    rw [updateLinkedItems_eq_map SalesInvoice.id SalesInvoice.items
          (fun r its => { r with items := its }) (fun r its => rfl) (fun r => rfl) pid p.name
          db.salesInvoices hnds,
        updateLinkedItems_eq_map PurchaseInvoice.id PurchaseInvoice.items
          (fun r its => { r with items := its }) (fun r its => rfl) (fun r => rfl) pid p.name
          db.purchaseInvoices hndp,
        updateLinkedItems_eq_map Quotation.id Quotation.items
          (fun r its => { r with items := its }) (fun r its => rfl) (fun r => rfl) pid p.name
          db.quotations hndq]
  · intro it
    unfold rewriteItem
    by_cases h : it.productId = some pid
    · rw [if_pos h]
      exact ⟨rfl, rfl, rfl, fun _ => ⟨rfl, rfl⟩, fun hn => absurd h hn⟩
    · rw [if_neg h]
      exact ⟨rfl, rfl, rfl, fun hc => absurd hc h, fun _ => rfl⟩

/-- Fixture: a second product that must survive deletions of A. -/
def prodB : Product :=
  { id := "B", name := "Gadget", sku := none, hsnCode := none, category := none,
    salePrice := 50, purchasePrice := 40, taxRate := none, isService := false,
    stock := some 20, reorderPoint := none }

/-- Fixture: a manual adjustment row logged against product A. -/
def saForA : StockAdjustment :=
  { id := "sa-9", productId := "A", date := "2024-01-05", quantityChange := 5, reason := "count" }

/-- Fixture: a store where product A is referenced by documents of all
three kinds and by an adjustment row, alongside an unrelated product. -/
def dbC4 : DB :=
  { emptyDB with
    products := [prodA, prodB],
    customers := [custC1], suppliers := [suppS1],
    salesInvoices := [invForC1], quotations := [quoForC1], purchaseInvoices := [pinvForS1],
    stockAdjustments := [saForA] }

/-- Witness for `productDelete_spec`: deleting product A on the fixture
store tombstones its items everywhere, drops its adjustment history and
removes the row. -/
theorem productDelete_spec_witness :
    productDelete dbC4 "A" = (true,
      { dbC4 with
        salesInvoices := dbC4.salesInvoices.map fun r => { r with items := r.items.map (rewriteItem "A" prodA.name) },
        purchaseInvoices := dbC4.purchaseInvoices.map fun r => { r with items := r.items.map (rewriteItem "A" prodA.name) },
        quotations := dbC4.quotations.map fun r => { r with items := r.items.map (rewriteItem "A" prodA.name) },
        stockAdjustments := dbC4.stockAdjustments.filter fun a => a.productId ≠ "A",
        products := dbC4.products.filter fun q => q.id ≠ "A" }) :=
  (productDelete_spec dbC4 "A" prodA (by decide) (by decide) (by decide) (by decide)).1

lemma cellOptText_optTextCell (o : Option String) : cellOptText (optTextCell o) = some o := by
  cases o <;> rfl

lemma cellOptNum_optNumCell (o : Option Int) : cellOptNum (optNumCell o) = some o := by
  cases o <;> rfl

lemma decodeSetting_encodeSetting (kv : String × Option SettingText) :
    decodeSetting (encodeSetting kv) = some kv := by
  obtain ⟨k, v⟩ := kv
  cases v <;> rfl

lemma decodeProduct_encodeProduct (p : Product) : decodeProduct (encodeProduct p) = some p := by
  obtain ⟨id, name, sku, hsn, cat, sp, pp, tr, isv, st, rp⟩ := p
  cases isv <;>
    simp [encodeProduct, decodeProduct, cellOptText_optTextCell, cellOptNum_optNumCell]

lemma decodeCustomer_encodeCustomer (c : Customer) : decodeCustomer (encodeCustomer c) = some c := by
  obtain ⟨id, name, email, phone, ba, sa, gstin⟩ := c
  simp [encodeCustomer, decodeCustomer, cellOptText_optTextCell]

lemma decodeSupplier_encodeSupplier (s : Supplier) : decodeSupplier (encodeSupplier s) = some s := by
  obtain ⟨id, name, email, phone, a, gstin⟩ := s
  simp [encodeSupplier, decodeSupplier, cellOptText_optTextCell]

lemma decodeSales_encodeSales (r : SalesInvoice) : decodeSales (encodeSales r) = some r := rfl

lemma decodeQuotation_encodeQuotation (r : Quotation) :
    decodeQuotation (encodeQuotation r) = some r := rfl

lemma decodePurchase_encodePurchase (r : PurchaseInvoice) :
    decodePurchase (encodePurchase r) = some r := rfl

lemma decodeAdjustment_encodeAdjustment (a : StockAdjustment) :
    decodeAdjustment (encodeAdjustment a) = some a := rfl

lemma decodeRows_map_encode {α β : Type} (enc : α → β) (dec : β → Option α)
    (h : ∀ a, dec (enc a) = some a) (l : List α) :
    decodeRows dec (l.map enc) = some l := by
  induction l with
  | nil => rfl
  | cons a l ih => simp [decodeRows, h, ih]

/-- C6: importing the snapshot just exported reconstructs the store
exactly — every row of every table, with every field value, of any
store state survives the `exportDb` / `importDb` roundtrip. -/
theorem export_import_roundtrip (db : DB) : importDb (exportDb db) = some db := by
  unfold exportDb importDb
  dsimp only
  rw [decodeRows_map_encode _ _ decodeSetting_encodeSetting,
      decodeRows_map_encode _ _ decodeProduct_encodeProduct,
      decodeRows_map_encode _ _ decodeCustomer_encodeCustomer,
      decodeRows_map_encode _ _ decodeSupplier_encodeSupplier,
      decodeRows_map_encode _ _ decodeSales_encodeSales,
      decodeRows_map_encode _ _ decodeQuotation_encodeQuotation,
      decodeRows_map_encode _ _ decodePurchase_encodePurchase,
      decodeRows_map_encode _ _ decodeAdjustment_encodeAdjustment]
  rfl

/-- Fixture: a status-only partial update (no `items` field). -/
def statusDelta : SalesInvoiceDelta := { emptySalesDelta with status := some "Paid" }

/-- Witness for `salesUpdate_no_items_frame`: marking the fixture
invoice as paid leaves the product table exactly as it was. -/
theorem salesUpdate_no_items_frame_witness :
    (salesUpdate dbC5 "si-1" statusDelta).dbOf.products = dbC5.products :=
  salesUpdate_no_items_frame dbC5 "si-1" statusDelta rfl
